import Mathlib

/-!
Shallow embedding of the Vault sample client
(`samples/python-app/vault_client.py`, with the static-secret scheduler
re-wrap from `samples/python-app/vault_app.py`).

Timestamps and lease durations are modelled as rationals (`ℚ`); Python's
`time.time()` becomes an explicit `now` parameter, one instant per call.
Remote endpoint calls (`hvac` operations) are modelled as explicit
`Except Unit _` oracle arguments: `.ok` is a structured response, `.error`
is any raised `VaultError`/`Exception`.  The mutable `self` object becomes
explicit state passing, and each secret getter additionally reports how
many remote secret-fetch calls it performed.
-/

set_option autoImplicit false

/-- Python truthiness of the `self.token` field: `not self.token` holds when
the token is `None` or the empty string. -/
def tokenFalsy : Option String → Bool
  | none => true
  | some s => s.isEmpty

/-- Response of `client.auth.approle.login` (`response['auth']`), per the
boundary contract: a token value and a lease duration in seconds. -/
structure LoginResponse where
  client_token : String
  lease_duration : ℚ
  deriving DecidableEq, Repr

/-- Response of `client.auth.token.renew_self` (`response['auth']`). -/
structure RenewResponse where
  lease_duration : ℚ
  deriving DecidableEq, Repr

/-- An entry of `self.kv_cache`: the dict
`{'data': ..., 'metadata': ..., 'timestamp': ...}` stored by `get_kv_secret`. -/
structure KvEntry (κ μ : Type) where
  data : κ
  metadata : μ
  timestamp : ℚ
  deriving DecidableEq, Repr

/-- An entry of `self.db_dynamic_cache`: the dict
`{'data': ..., 'ttl': ..., 'timestamp': ...}` stored by
`get_database_dynamic_secret`. -/
structure DynEntry (δ : Type) where
  data : δ
  ttl : ℚ
  timestamp : ℚ
  deriving DecidableEq, Repr

/-- An entry of `self.db_static_cache`: the dict
`{'data': ..., 'ttl': ..., 'timestamp': ...}` stored by
`get_database_static_secret`. -/
structure StaticEntry (σ : Type) where
  data : σ
  ttl : ℚ
  timestamp : ℚ
  deriving DecidableEq, Repr

/-- Lookup in a Python dict modelled as an association list
(first binding for the key; `dictSet` keeps at most one per key). -/
def dictGet {α : Type} : List (String × α) → String → Option α
  | [], _ => none
  | (k, v) :: rest, key => if k = key then some v else dictGet rest key

/-- Python dict assignment `m[key] = v`: replace the existing binding in
place, or append a new one. -/
def dictSet {α : Type} : List (String × α) → String → α → List (String × α)
  | [], key, v => [(key, v)]
  | (k, w) :: rest, key, v =>
      if k = key then (k, v) :: rest else (k, w) :: dictSet rest key v

/-- The mutable state of a `VaultClient` object: token fields plus the three
per-category caches.  Payload types are opaque parameters (`κ`/`μ` for KV
data and metadata, `δ` for dynamic credentials, `σ` for static credentials). -/
structure ClientState (κ μ δ σ : Type) where
  token : Option String
  token_issued_time : ℚ
  token_ttl : ℚ
  kv_cache : List (String × KvEntry κ μ)
  db_dynamic_cache : List (String × DynEntry δ)
  db_static_cache : List (String × StaticEntry σ)
  deriving DecidableEq, Repr

variable {κ μ δ σ : Type}

/-- `VaultClient.login`: on a successful AppRole login install the new token,
`token_issued_time = now` and `token_ttl` from the response and return `True`;
on any raised error return `False` with the state unchanged. -/
def login (s : ClientState κ μ δ σ) (now : ℚ) (r : Except Unit LoginResponse) :
    Bool × ClientState κ μ δ σ :=
  match r with
  | .ok resp =>
      (true, { s with
                token := some resp.client_token,
                token_issued_time := now,
                token_ttl := resp.lease_duration })
  | .error _ => (false, s)

/-- `VaultClient.renew_token`: on success update `token_issued_time = now` and
`token_ttl` from the response (token value kept) and return `True`; on any
raised error return `False` with the state unchanged. -/
def renew_token (s : ClientState κ μ δ σ) (now : ℚ) (r : Except Unit RenewResponse) :
    Bool × ClientState κ μ δ σ :=
  match r with
  | .ok resp =>
      (true, { s with token_issued_time := now, token_ttl := resp.lease_duration })
  | .error _ => (false, s)

/-- `VaultClient.is_token_expired`: `True` if `not self.token` or
`self.token_ttl <= 0`, else `elapsed >= token_ttl * 0.8` with
`elapsed = now - token_issued_time`. -/
def is_token_expired (s : ClientState κ μ δ σ) (now : ℚ) : Bool :=
  if tokenFalsy s.token || decide (s.token_ttl ≤ 0) then true
  else decide (now - s.token_issued_time ≥ s.token_ttl * (4 / 5))

/-- Which remote token operation `ensure_valid_token` performed. -/
inductive TokenAction
  | noneAct
  | loginAct
  | renewAct
  deriving DecidableEq, Repr

/-- `VaultClient.ensure_valid_token`: if `not self.token or is_token_expired()`
return `login()`; else if `is_token_expired()` return `renew_token()`; else
`True`.  The `TokenAction` component records which branch ran. -/
def ensure_valid_token (s : ClientState κ μ δ σ) (now : ℚ)
    (lr : Except Unit LoginResponse) (rr : Except Unit RenewResponse) :
    Bool × ClientState κ μ δ σ × TokenAction :=
  if tokenFalsy s.token || is_token_expired s now then
    let p := login s now lr
    (p.1, p.2, TokenAction.loginAct)
  else if is_token_expired s now then
    let p := renew_token s now rr
    (p.1, p.2, TokenAction.renewAct)
  else
    (true, s, TokenAction.noneAct)

/-- Python `int(...)` on a rational: truncation toward zero. -/
def pyInt (q : ℚ) : ℤ :=
  if 0 ≤ q then ⌊q⌋ else -⌊-q⌋

/-- Response of `client.secrets.kv.v2.read_secret_version`:
`response['data']['data']` and `response['data']['metadata']`. -/
structure KvResponse (κ μ : Type) where
  data : κ
  metadata : μ
  deriving DecidableEq, Repr

/-- Response of `client.secrets.database.generate_credentials`:
`response['data']` and `response['lease_duration']`. -/
structure DynResponse (δ : Type) where
  data : δ
  lease_duration : ℚ
  deriving DecidableEq, Repr

/-- Response of `client.secrets.database.get_static_credentials`:
`response['data']` and the optional `response['ttl']`
(`response.get('ttl', 3600)` in the source). -/
structure StaticResponse (σ : Type) where
  data : σ
  ttl : Option ℚ
  deriving DecidableEq, Repr

/-- `VaultClient.get_kv_secret`.  Returns the Python return value
(`None` or the secret data), the updated client state, and the number of
remote secret-fetch calls made (`read_secret_version` invocations). -/
def get_kv_secret (s : ClientState κ μ δ σ) (path : String) (now : ℚ)
    (lr : Except Unit LoginResponse) (rr : Except Unit RenewResponse)
    (fr : Except Unit (KvResponse κ μ)) :
    Option κ × ClientState κ μ δ σ × ℕ :=
  let e := ensure_valid_token s now lr rr
  if e.1 then
    let s1 := e.2.1
    let fetch : Option κ × ClientState κ μ δ σ × ℕ :=
      match fr with
      | .ok r =>
          (some r.data,
           { s1 with kv_cache := dictSet s1.kv_cache path ⟨r.data, r.metadata, now⟩ },
           1)
      | .error _ => (none, s1, 1)
    match dictGet s1.kv_cache path with
    | some cached => if now - cached.timestamp < 300 then (some cached.data, s1, 0) else fetch
    | none => fetch
  else
    (none, e.2.1, 0)

/-- `VaultClient.get_database_dynamic_secret`.  The result mirrors the
returned dict `{'data': ..., 'ttl': ...}` as a pair; on a fresh cache hit the
ttl component is the recomputed remaining lease, truncated by `int(...)`. -/
def get_database_dynamic_secret (s : ClientState κ μ δ σ) (role_id : String) (now : ℚ)
    (lr : Except Unit LoginResponse) (rr : Except Unit RenewResponse)
    (fr : Except Unit (DynResponse δ)) :
    Option (δ × ℚ) × ClientState κ μ δ σ × ℕ :=
  let e := ensure_valid_token s now lr rr
  if e.1 then
    let s1 := e.2.1
    let fetch : Option (δ × ℚ) × ClientState κ μ δ σ × ℕ :=
      match fr with
      | .ok r =>
          (some (r.data, r.lease_duration),
           { s1 with db_dynamic_cache :=
              dictSet s1.db_dynamic_cache role_id ⟨r.data, r.lease_duration, now⟩ },
           1)
      | .error _ => (none, s1, 1)
    match dictGet s1.db_dynamic_cache role_id with
    | some cached =>
        let remaining := cached.ttl - (now - cached.timestamp)
        if remaining > 10 then (some (cached.data, (pyInt remaining : ℚ)), s1, 0) else fetch
    | none => fetch
  else
    (none, e.2.1, 0)

/-- The dynamically shaped return value of `get_database_static_secret`:
`None`, the bare cached payload dict (fresh hit), or the wrapper dict
`{'data': ..., 'ttl': ...}` (after a remote fetch). -/
inductive StaticResult (σ : Type)
  | unavailable
  | bare (data : σ)
  | wrapped (data : σ) (ttl : ℚ)
  deriving DecidableEq, Repr

/-- `VaultClient.get_database_static_secret`.  On a fresh cache hit it
returns the bare stored payload (`cached_data['data']`); after a successful
remote fetch it returns the wrapper with `ttl = response.get('ttl', 3600)`. -/
def get_database_static_secret (s : ClientState κ μ δ σ) (role_id : String) (now : ℚ)
    (lr : Except Unit LoginResponse) (rr : Except Unit RenewResponse)
    (fr : Except Unit (StaticResponse σ)) :
    StaticResult σ × ClientState κ μ δ σ × ℕ :=
  let e := ensure_valid_token s now lr rr
  if e.1 then
    let s1 := e.2.1
    let fetch : StaticResult σ × ClientState κ μ δ σ × ℕ :=
      match fr with
      | .ok r =>
          let ttlv := r.ttl.getD 3600
          (StaticResult.wrapped r.data ttlv,
           { s1 with db_static_cache :=
              dictSet s1.db_static_cache role_id ⟨r.data, ttlv, now⟩ },
           1)
      | .error _ => (StaticResult.unavailable, s1, 1)
    match dictGet s1.db_static_cache role_id with
    | some cached => if now - cached.timestamp < 300 then (StaticResult.bare cached.data, s1, 0) else fetch
    | none => fetch
  else
    (StaticResult.unavailable, e.2.1, 0)

/-- The re-wrap expression in `vault_app.py` `_database_static_scheduler`:
`{"data": r.get("data", r), "ttl": r.get("ttl", r.get("lease_duration", -1))}`
when `r` is a dict without an `"errors"` key, else `None`.  Payload mappings
are opaque here and assumed not to use the keys `data`, `ttl`,
`lease_duration` or `errors` themselves (static credentials hold
username/password fields). -/
def rewrapStatic (r : StaticResult σ) : Option (σ × ℚ) :=
  match r with
  | StaticResult.unavailable => none
  | StaticResult.bare d => some (d, -1)
  | StaticResult.wrapped d t => some (d, t)

/-- The token fields shared between the scheduler threads, as read and
written without synchronization by `login` (lines 68-70 of
`vault_client.py`). -/
structure TokTriple where
  token : Option String
  issued : ℚ
  ttl : ℚ
  deriving DecidableEq, Repr

/-- The successful `login` body as its sequence of three separate atomic
field assignments: `self.token = ...`, `self.token_issued_time = ...`,
`self.token_ttl = ...`.  No lock surrounds the sequence, so another thread
can observe the shared state between any two of them. -/
def loginWrites (v : String) (now d : ℚ) : List (TokTriple → TokTriple) :=
  [fun s => { s with token := some v },
   fun s => { s with issued := now },
   fun s => { s with ttl := d }]

/-- The shared token state after the first `k` atomic writes of a login have
executed: what a concurrent reader scheduled at that point observes. -/
def afterWrites (v : String) (now d : ℚ) (k : ℕ) (s : TokTriple) : TokTriple :=
  ((loginWrites v now d).take k).foldl (fun a f => f a) s

example :
    is_token_expired (κ := Unit) (μ := Unit) (δ := Unit) (σ := Unit)
      ⟨some "t", 0, 100, [], [], []⟩ 81 = true := by
  norm_num [is_token_expired, tokenFalsy, show "t".isEmpty = false from rfl]

example :
    is_token_expired (κ := Unit) (μ := Unit) (δ := Unit) (σ := Unit)
      ⟨some "t", 0, 100, [], [], []⟩ 79 = false := by
  norm_num [is_token_expired, tokenFalsy, show "t".isEmpty = false from rfl]

theorem tokenFalsy_iff (t : Option String) :
    tokenFalsy t = true ↔ t = none ∨ t = some "" := by
  cases t with
  | none => simp [tokenFalsy]
  | some s => simp [tokenFalsy, String.isEmpty_iff]

/-- C2: `is_token_expired` returns `true` iff no token is held (`None` or the
empty string, both falsy in Python), or `token_ttl ≤ 0`, or
`elapsed = now - token_issued_time` satisfies `elapsed ≥ 0.8 * token_ttl`;
at exactly `elapsed = 0.8 * token_ttl` it returns `true` (expired). -/
theorem C2_is_token_expired_characterization (s : ClientState κ μ δ σ) (now : ℚ) :
    (is_token_expired s now = true ↔
      (s.token = none ∨ s.token = some "" ∨ s.token_ttl ≤ 0 ∨
        now - s.token_issued_time ≥ (4 / 5) * s.token_ttl)) ∧
    (now - s.token_issued_time = (4 / 5) * s.token_ttl →
      is_token_expired s now = true) := by
  have hchar : is_token_expired s now = true ↔
      (s.token = none ∨ s.token = some "" ∨ s.token_ttl ≤ 0 ∨
        now - s.token_issued_time ≥ (4 / 5) * s.token_ttl) := by
    unfold is_token_expired
    split
    · rename_i h
      simp only [Bool.or_eq_true, decide_eq_true_eq, tokenFalsy_iff] at h
      simp only [true_iff]
      tauto
    · rename_i h
      simp only [Bool.or_eq_true, decide_eq_true_eq, tokenFalsy_iff] at h
      push_neg at h
      obtain ⟨⟨h1, h2⟩, h3⟩ := h
      simp only [decide_eq_true_eq]
      constructor
      · intro hge
        exact Or.inr (Or.inr (Or.inr (by linarith)))
      · rintro (hc | hc | hc | hc)
        · exact absurd hc h1
        · exact absurd hc h2
        · exact absurd hc (by linarith)
        · linarith
  refine ⟨hchar, fun hb => hchar.mpr ?_⟩
  exact Or.inr (Or.inr (Or.inr (by linarith)))

/-- Witness for C2 at the boundary: lease 100, issued at 0, read at 80. -/
theorem C2_witness :
    is_token_expired (⟨some "t", 0, 100, [], [], []⟩ : ClientState Unit Unit Unit Unit)
      80 = true :=
  (C2_is_token_expired_characterization _ 80).2 (by norm_num)

/-- C7: a failed `login` returns `False` and leaves the token, its issue time
and its lease duration (indeed the whole client state) unchanged; a failed
`renew_token` likewise returns `False` with the state untouched. -/
theorem C7_login_renew_failure_preserves_state (s : ClientState κ μ δ σ) (now : ℚ)
    (u : Unit) :
    login s now (Except.error u) = (false, s) ∧
    renew_token s now (Except.error u) = (false, s) :=
  ⟨rfl, rfl⟩

/-- C8: `ensure_valid_token` never performs the renew action: whenever the
token is falsy or `is_token_expired` holds it returns exactly the result of
`login`, and otherwise it returns `True` with no remote call; the
`renew_token` branch is unreachable. -/
theorem C8_renew_branch_unreachable (s : ClientState κ μ δ σ) (now : ℚ)
    (lr : Except Unit LoginResponse) (rr : Except Unit RenewResponse) :
    (ensure_valid_token s now lr rr).2.2 ≠ TokenAction.renewAct ∧
    ((tokenFalsy s.token = true ∨ is_token_expired s now = true) →
      ensure_valid_token s now lr rr =
        ((login s now lr).1, (login s now lr).2, TokenAction.loginAct)) ∧
    (tokenFalsy s.token = false → is_token_expired s now = false →
      ensure_valid_token s now lr rr = (true, s, TokenAction.noneAct)) := by
  by_cases hc : (tokenFalsy s.token || is_token_expired s now) = true
  · refine ⟨?_, fun _ => ?_, fun h1 h2 => ?_⟩
    · simp [ensure_valid_token, hc]
    · simp [ensure_valid_token, hc]
    · rw [h1, h2] at hc
      simp at hc
  · have hc' : tokenFalsy s.token = false ∧ is_token_expired s now = false := by
      simpa only [Bool.or_eq_true, not_or, Bool.not_eq_true] using hc
    obtain ⟨h1, h2⟩ := hc'
    refine ⟨?_, ?_, fun _ _ => ?_⟩
    · simp [ensure_valid_token, h1, h2]
    · rintro (ha | ha)
      · rw [ha] at h1; cases h1
      · rw [ha] at h2; cases h2
    · simp [ensure_valid_token, h1, h2]

/-- Witness for C8: no token held, so `ensure_valid_token` runs the login
branch and installs the login response. -/
theorem C8_witness :
    ensure_valid_token (⟨none, 0, 0, [], [], []⟩ : ClientState Unit Unit Unit Unit) 0
      (Except.ok ⟨"t", 100⟩) (Except.ok ⟨50⟩) =
      (true, ⟨some "t", 0, 100, [], [], []⟩, TokenAction.loginAct) := by
  have h := (C8_renew_branch_unreachable
      (⟨none, 0, 0, [], [], []⟩ : ClientState Unit Unit Unit Unit) 0
      (Except.ok ⟨"t", 100⟩) (Except.ok ⟨50⟩)).2.1 (Or.inl rfl)
  rw [h]
  rfl

/-- C1 counterexample: with a held, expired token (`"t"`, lease 100, read 81s
after issue) `ensure_valid_token` delegates to `login` — installing the login
response token `"fresh"` — not to `renew_token`, which would have kept the
token value `"t"`.  Moreover it can return `True` while the token held
afterward is invalid: after a login response with lease 0, and after one with
an empty token value. -/
theorem C1_counterexample :
    (tokenFalsy (some "t") = false ∧
     is_token_expired (⟨some "t", 0, 100, [], [], []⟩ :
        ClientState Unit Unit Unit Unit) 81 = true ∧
     (ensure_valid_token (⟨some "t", 0, 100, [], [], []⟩ :
        ClientState Unit Unit Unit Unit) 81
        (Except.ok ⟨"fresh", 100⟩) (Except.ok ⟨77⟩)).2.2 = TokenAction.loginAct ∧
     (ensure_valid_token (⟨some "t", 0, 100, [], [], []⟩ :
        ClientState Unit Unit Unit Unit) 81
        (Except.ok ⟨"fresh", 100⟩) (Except.ok ⟨77⟩)).2.1.token = some "fresh" ∧
     (renew_token (⟨some "t", 0, 100, [], [], []⟩ :
        ClientState Unit Unit Unit Unit) 81 (Except.ok ⟨77⟩)).2.token = some "t") ∧
    ((ensure_valid_token (⟨none, 0, 0, [], [], []⟩ :
        ClientState Unit Unit Unit Unit) 5
        (Except.ok ⟨"t", 0⟩) (Except.ok ⟨77⟩)).1 = true ∧
     is_token_expired
       (ensure_valid_token (⟨none, 0, 0, [], [], []⟩ :
          ClientState Unit Unit Unit Unit) 5
          (Except.ok ⟨"t", 0⟩) (Except.ok ⟨77⟩)).2.1 5 = true) ∧
    ((ensure_valid_token (⟨none, 0, 0, [], [], []⟩ :
        ClientState Unit Unit Unit Unit) 5
        (Except.ok ⟨"", 100⟩) (Except.ok ⟨77⟩)).1 = true ∧
     is_token_expired
       (ensure_valid_token (⟨none, 0, 0, [], [], []⟩ :
          ClientState Unit Unit Unit Unit) 5
          (Except.ok ⟨"", 100⟩) (Except.ok ⟨77⟩)).2.1 5 = true) := by
  have hexp : is_token_expired (⟨some "t", 0, 100, [], [], []⟩ :
      ClientState Unit Unit Unit Unit) 81 = true := by
    norm_num [is_token_expired, tokenFalsy, show "t".isEmpty = false from rfl]
  refine ⟨⟨rfl, hexp, ?_, ?_, rfl⟩, ⟨?_, ?_⟩, ⟨?_, ?_⟩⟩
  · simp [ensure_valid_token, hexp]
  · simp [ensure_valid_token, hexp, login]
  · rfl
  · rfl
  · rfl
  · rfl

/-- C1 (amended): if the token is absent/empty or `is_token_expired` holds,
`ensure_valid_token` returns exactly the result of `login` (it never
delegates to `renew_token`); otherwise it returns `True` without a remote
call and the held token is valid; and whenever it returns `True`, a valid
token is held afterward provided the login response (when one was consumed)
carried a nonempty token value and a positive lease duration. -/
theorem C1_ensure_valid_token_amended (s : ClientState κ μ δ σ) (now : ℚ)
    (lr : Except Unit LoginResponse) (rr : Except Unit RenewResponse) :
    ((tokenFalsy s.token = true ∨ is_token_expired s now = true) →
      ensure_valid_token s now lr rr =
        ((login s now lr).1, (login s now lr).2, TokenAction.loginAct)) ∧
    (tokenFalsy s.token = false → is_token_expired s now = false →
      ensure_valid_token s now lr rr = (true, s, TokenAction.noneAct)) ∧
    (∀ resp : LoginResponse, lr = Except.ok resp →
      resp.client_token.isEmpty = false → 0 < resp.lease_duration →
      (ensure_valid_token s now lr rr).1 = true →
      is_token_expired (ensure_valid_token s now lr rr).2.1 now = false) := by
  by_cases hc : (tokenFalsy s.token || is_token_expired s now) = true
  · refine ⟨fun _ => by simp [ensure_valid_token, hc], fun h1 h2 => ?_, ?_⟩
    · rw [h1, h2] at hc
      simp at hc
    · intro resp hresp hne hpos _
      subst hresp
      have hres : (ensure_valid_token s now (Except.ok resp) rr).2.1 =
          { s with token := some resp.client_token,
                   token_issued_time := now,
                   token_ttl := resp.lease_duration } := by
        simp [ensure_valid_token, hc, login]
      rw [hres]
      unfold is_token_expired
      have h1 : tokenFalsy (some resp.client_token) = false := by
        simp [tokenFalsy, hne]
      have h2 : ¬ (resp.lease_duration ≤ 0) := by linarith
      simp only [h1, h2, decide_eq_true_eq, ge_iff_le]
      rw [if_neg]
      · simp only [decide_eq_false_iff_not, not_le]
        have : 0 < resp.lease_duration * (4 / 5) := by linarith
        linarith
      · simp [h2]
  · have hc' : tokenFalsy s.token = false ∧ is_token_expired s now = false := by
      simpa only [Bool.or_eq_true, not_or, Bool.not_eq_true] using hc
    obtain ⟨h1, h2⟩ := hc'
    refine ⟨?_, fun _ _ => by simp [ensure_valid_token, h1, h2], ?_⟩
    · rintro (ha | ha)
      · rw [ha] at h1; cases h1
      · rw [ha] at h2; cases h2
    · intro resp hresp hne hpos _
      have hres : (ensure_valid_token s now lr rr).2.1 = s := by
        simp [ensure_valid_token, h1, h2]
      rw [hres, h2]

/-- Witness for the amended C1: held expired token, so the login branch runs
and installs the login response wholesale. -/
theorem C1_witness :
    ensure_valid_token (⟨some "t", 0, 100, [], [], []⟩ :
        ClientState Unit Unit Unit Unit) 81
      (Except.ok ⟨"n", 100⟩) (Except.ok ⟨50⟩) =
      (true, ⟨some "n", 81, 100, [], [], []⟩, TokenAction.loginAct) := by
  have hexp : is_token_expired (⟨some "t", 0, 100, [], [], []⟩ :
      ClientState Unit Unit Unit Unit) 81 = true := by
    norm_num [is_token_expired, tokenFalsy, show "t".isEmpty = false from rfl]
  have h := (C1_ensure_valid_token_amended
      (⟨some "t", 0, 100, [], [], []⟩ : ClientState Unit Unit Unit Unit) 81
      (Except.ok ⟨"n", 100⟩) (Except.ok ⟨50⟩)).1 (Or.inr hexp)
  rw [h]
  rfl

theorem ensure_caches (s : ClientState κ μ δ σ) (now : ℚ)
    (lr : Except Unit LoginResponse) (rr : Except Unit RenewResponse) :
    (ensure_valid_token s now lr rr).2.1.kv_cache = s.kv_cache ∧
    (ensure_valid_token s now lr rr).2.1.db_dynamic_cache = s.db_dynamic_cache ∧
    (ensure_valid_token s now lr rr).2.1.db_static_cache = s.db_static_cache := by
  rcases lr with u | resp <;> rcases rr with u2 | resp2 <;>
    by_cases hc : (tokenFalsy s.token || is_token_expired s now) = true <;>
    by_cases hc2 : is_token_expired s now = true <;>
    simp [ensure_valid_token, login, renew_token, hc, hc2] <;> split <;> simp

/-- C4: for KV and static-database cache entries the freshness rule is the
300-second time window: with a valid token and a cached entry at the key,
no remote read happens iff `now - storedAt < 300`; a fresh hit returns the
stored payload with no state change; at exactly `now - storedAt = 300` the
entry is stale and one remote read is triggered. -/
theorem C4_time_window_freshness (s : ClientState κ μ δ σ) (path role : String)
    (now : ℚ) (lr : Except Unit LoginResponse) (rr : Except Unit RenewResponse)
    (frk : Except Unit (KvResponse κ μ)) (frs : Except Unit (StaticResponse σ))
    (hok : (ensure_valid_token s now lr rr).1 = true) :
    (∀ e : KvEntry κ μ, dictGet s.kv_cache path = some e →
      ((get_kv_secret s path now lr rr frk).2.2 = 0 ↔ now - e.timestamp < 300) ∧
      (now - e.timestamp < 300 →
        get_kv_secret s path now lr rr frk =
          (some e.data, (ensure_valid_token s now lr rr).2.1, 0)) ∧
      (now - e.timestamp = 300 → (get_kv_secret s path now lr rr frk).2.2 = 1)) ∧
    (∀ e : StaticEntry σ, dictGet s.db_static_cache role = some e →
      ((get_database_static_secret s role now lr rr frs).2.2 = 0 ↔
        now - e.timestamp < 300) ∧
      (now - e.timestamp < 300 →
        get_database_static_secret s role now lr rr frs =
          (StaticResult.bare e.data, (ensure_valid_token s now lr rr).2.1, 0)) ∧
      (now - e.timestamp = 300 →
        (get_database_static_secret s role now lr rr frs).2.2 = 1)) := by
  obtain ⟨hkv, hdy, hst⟩ := ensure_caches s now lr rr
  constructor
  · intro e he
    have hge : dictGet (ensure_valid_token s now lr rr).2.1.kv_cache path = some e := by
      rw [hkv]; exact he
    by_cases hfresh : now - e.timestamp < 300
    · have heval : get_kv_secret s path now lr rr frk =
          (some e.data, (ensure_valid_token s now lr rr).2.1, 0) := by
        simp [get_kv_secret, hok, hge, hfresh]
      exact ⟨by rw [heval]; simpa using hfresh, fun _ => heval,
        fun heq => by rw [heq] at hfresh; norm_num at hfresh⟩
    · have hcnt : (get_kv_secret s path now lr rr frk).2.2 = 1 := by
        rcases frk with u | r <;> simp [get_kv_secret, hok, hge, hfresh]
      exact ⟨by rw [hcnt]; simp [hfresh], fun hf => absurd hf hfresh, fun _ => hcnt⟩
  · intro e he
    have hge : dictGet (ensure_valid_token s now lr rr).2.1.db_static_cache role = some e := by
      rw [hst]; exact he
    by_cases hfresh : now - e.timestamp < 300
    · have heval : get_database_static_secret s role now lr rr frs =
          (StaticResult.bare e.data, (ensure_valid_token s now lr rr).2.1, 0) := by
        simp [get_database_static_secret, hok, hge, hfresh]
      exact ⟨by rw [heval]; simpa using hfresh, fun _ => heval,
        fun heq => by rw [heq] at hfresh; norm_num at hfresh⟩
    · have hcnt : (get_database_static_secret s role now lr rr frs).2.2 = 1 := by
        rcases frs with u | r <;> simp [get_database_static_secret, hok, hge, hfresh]
      exact ⟨by rw [hcnt]; simp [hfresh], fun hf => absurd hf hfresh, fun _ => hcnt⟩

/-- Witness for C4: a KV entry stored at time 0 read at 250 is fresh and is
served from the cache with no remote read. -/
theorem C4_witness :
    get_kv_secret (⟨some "t", 200, 1000, [("p", ⟨"v", "m", 0⟩)], [], []⟩ :
        ClientState String String String String) "p" 250
      (Except.error ()) (Except.error ()) (Except.error ()) =
      (some "v", ⟨some "t", 200, 1000, [("p", ⟨"v", "m", 0⟩)], [], []⟩, 0) := by
  have hens : ensure_valid_token (⟨some "t", 200, 1000, [("p", ⟨"v", "m", 0⟩)], [], []⟩ :
      ClientState String String String String) 250 (Except.error ()) (Except.error ()) =
      (true, ⟨some "t", 200, 1000, [("p", ⟨"v", "m", 0⟩)], [], []⟩, TokenAction.noneAct) := by
    norm_num [ensure_valid_token, is_token_expired, tokenFalsy,
      show "t".isEmpty = false from rfl]
  have h := ((C4_time_window_freshness
      (⟨some "t", 200, 1000, [("p", ⟨"v", "m", 0⟩)], [], []⟩ :
        ClientState String String String String) "p" "r" 250
      (Except.error ()) (Except.error ()) (Except.error ()) (Except.error ())
      (by rw [hens])).1 ⟨"v", "m", 0⟩ (by simp [dictGet])).2.1 (by norm_num)
  rw [h, hens]

/-- C3: a dynamic-database cache entry is fresh iff
`leaseSeconds - (now - storedAt) > 10`; a fresh hit returns the recomputed
remaining lease truncated to an integer (not the stored lease value) with no
remote fetch and no state change; otherwise one remote fetch is made. -/
theorem C3_lease_based_freshness (s : ClientState κ μ δ σ) (role : String)
    (now : ℚ) (lr : Except Unit LoginResponse) (rr : Except Unit RenewResponse)
    (fr : Except Unit (DynResponse δ))
    (hok : (ensure_valid_token s now lr rr).1 = true)
    (e : DynEntry δ) (he : dictGet s.db_dynamic_cache role = some e) :
    ((get_database_dynamic_secret s role now lr rr fr).2.2 = 0 ↔
      e.ttl - (now - e.timestamp) > 10) ∧
    (e.ttl - (now - e.timestamp) > 10 →
      get_database_dynamic_secret s role now lr rr fr =
        (some (e.data, (pyInt (e.ttl - (now - e.timestamp)) : ℚ)),
         (ensure_valid_token s now lr rr).2.1, 0)) ∧
    (¬ e.ttl - (now - e.timestamp) > 10 →
      (get_database_dynamic_secret s role now lr rr fr).2.2 = 1) := by
  obtain ⟨hkv, hdy, hst⟩ := ensure_caches s now lr rr
  have hge : dictGet (ensure_valid_token s now lr rr).2.1.db_dynamic_cache role = some e := by
    rw [hdy]; exact he
  by_cases hfresh : e.ttl - (now - e.timestamp) > 10
  · have heval : get_database_dynamic_secret s role now lr rr fr =
        (some (e.data, (pyInt (e.ttl - (now - e.timestamp)) : ℚ)),
         (ensure_valid_token s now lr rr).2.1, 0) := by
      simp [get_database_dynamic_secret, hok, hge, hfresh]
    exact ⟨by rw [heval]; simpa using hfresh, fun _ => heval, fun hs => absurd hfresh hs⟩
  · have hcnt : (get_database_dynamic_secret s role now lr rr fr).2.2 = 1 := by
      rcases fr with u | r <;> simp [get_database_dynamic_secret, hok, hge, hfresh]
    exact ⟨by rw [hcnt]; simp [hfresh], fun hf => absurd hf hfresh, fun _ => hcnt⟩

/-- Witness for C3: lease 20 stored at time 0, read at 4.5s: remaining lease
is 15.5, so the hit returns ttl 15 (truncated, and distinct from the stored
lease 20) with no remote fetch. -/
theorem C3_witness :
    get_database_dynamic_secret (⟨some "t", 0, 1000, [], [("r", ⟨"cred", 20, 0⟩)], []⟩ :
        ClientState String String String String) "r" (9 / 2)
      (Except.error ()) (Except.error ()) (Except.error ()) =
      (some ("cred", 15), ⟨some "t", 0, 1000, [], [("r", ⟨"cred", 20, 0⟩)], []⟩, 0) := by
  have hens : ensure_valid_token (⟨some "t", 0, 1000, [], [("r", ⟨"cred", 20, 0⟩)], []⟩ :
      ClientState String String String String) (9 / 2) (Except.error ()) (Except.error ()) =
      (true, ⟨some "t", 0, 1000, [], [("r", ⟨"cred", 20, 0⟩)], []⟩, TokenAction.noneAct) := by
    norm_num [ensure_valid_token, is_token_expired, tokenFalsy,
      show "t".isEmpty = false from rfl]
  have h := (C3_lease_based_freshness
      (⟨some "t", 0, 1000, [], [("r", ⟨"cred", 20, 0⟩)], []⟩ :
        ClientState String String String String) "r" (9 / 2)
      (Except.error ()) (Except.error ()) (Except.error ())
      (by rw [hens]) ⟨"cred", 20, 0⟩ (by simp [dictGet])).2.1 (by norm_num)
  rw [h, hens]
  norm_num [pyInt]

/-- C5: for each category's getter (with a valid token): a fresh cached entry
means zero remote fetch calls; a missing or stale entry means exactly one
remote fetch, and when that fetch succeeds the category's cache gains exactly
one replaced/new entry at the looked-up key, built from the response, before
the fetched payload is returned. -/
theorem C5_remote_fetch_discipline (s : ClientState κ μ δ σ)
    (path role1 role2 : String) (now : ℚ)
    (lr : Except Unit LoginResponse) (rr : Except Unit RenewResponse)
    (frk : Except Unit (KvResponse κ μ)) (frd : Except Unit (DynResponse δ))
    (frs : Except Unit (StaticResponse σ))
    (hok : (ensure_valid_token s now lr rr).1 = true) :
    ((∀ e : KvEntry κ μ, dictGet s.kv_cache path = some e →
        now - e.timestamp < 300 → (get_kv_secret s path now lr rr frk).2.2 = 0) ∧
     ((dictGet s.kv_cache path = none ∨
        (∃ e : KvEntry κ μ, dictGet s.kv_cache path = some e ∧
          ¬ now - e.timestamp < 300)) →
       (get_kv_secret s path now lr rr frk).2.2 = 1 ∧
       ∀ r : KvResponse κ μ, frk = Except.ok r →
         (get_kv_secret s path now lr rr frk).2.1.kv_cache =
           dictSet s.kv_cache path ⟨r.data, r.metadata, now⟩ ∧
         (get_kv_secret s path now lr rr frk).1 = some r.data)) ∧
    ((∀ e : DynEntry δ, dictGet s.db_dynamic_cache role1 = some e →
        e.ttl - (now - e.timestamp) > 10 →
        (get_database_dynamic_secret s role1 now lr rr frd).2.2 = 0) ∧
     ((dictGet s.db_dynamic_cache role1 = none ∨
        (∃ e : DynEntry δ, dictGet s.db_dynamic_cache role1 = some e ∧
          ¬ e.ttl - (now - e.timestamp) > 10)) →
       (get_database_dynamic_secret s role1 now lr rr frd).2.2 = 1 ∧
       ∀ r : DynResponse δ, frd = Except.ok r →
         (get_database_dynamic_secret s role1 now lr rr frd).2.1.db_dynamic_cache =
           dictSet s.db_dynamic_cache role1 ⟨r.data, r.lease_duration, now⟩ ∧
         (get_database_dynamic_secret s role1 now lr rr frd).1 =
           some (r.data, r.lease_duration))) ∧
    ((∀ e : StaticEntry σ, dictGet s.db_static_cache role2 = some e →
        now - e.timestamp < 300 →
        (get_database_static_secret s role2 now lr rr frs).2.2 = 0) ∧
     ((dictGet s.db_static_cache role2 = none ∨
        (∃ e : StaticEntry σ, dictGet s.db_static_cache role2 = some e ∧
          ¬ now - e.timestamp < 300)) →
       (get_database_static_secret s role2 now lr rr frs).2.2 = 1 ∧
       ∀ r : StaticResponse σ, frs = Except.ok r →
         (get_database_static_secret s role2 now lr rr frs).2.1.db_static_cache =
           dictSet s.db_static_cache role2 ⟨r.data, r.ttl.getD 3600, now⟩ ∧
         (get_database_static_secret s role2 now lr rr frs).1 =
           StaticResult.wrapped r.data (r.ttl.getD 3600))) := by
  obtain ⟨hkv, hdy, hst⟩ := ensure_caches s now lr rr
  refine ⟨⟨?_, ?_⟩, ⟨?_, ?_⟩, ⟨?_, ?_⟩⟩
  · intro e he hfresh
    have hge : dictGet (ensure_valid_token s now lr rr).2.1.kv_cache path = some e := by
      rw [hkv]; exact he
    simp [get_kv_secret, hok, hge, hfresh]
  · intro hmiss
    constructor
    · rcases hmiss with hnone | ⟨e, he, hstale⟩
      · have hge : dictGet (ensure_valid_token s now lr rr).2.1.kv_cache path = none := by
          rw [hkv]; exact hnone
        rcases frk with u | r <;> simp [get_kv_secret, hok, hge]
      · have hge : dictGet (ensure_valid_token s now lr rr).2.1.kv_cache path = some e := by
          rw [hkv]; exact he
        rcases frk with u | r <;> simp [get_kv_secret, hok, hge, hstale]
    · intro r hr
      subst hr
      rcases hmiss with hnone | ⟨e, he, hstale⟩
      · have hge : dictGet (ensure_valid_token s now lr rr).2.1.kv_cache path = none := by
          rw [hkv]; exact hnone
        simp [get_kv_secret, hok, hge, hkv, hnone]
      · have hge : dictGet (ensure_valid_token s now lr rr).2.1.kv_cache path = some e := by
          rw [hkv]; exact he
        simp [get_kv_secret, hok, hge, hstale, hkv, he]
  · intro e he hfresh
    have hge : dictGet (ensure_valid_token s now lr rr).2.1.db_dynamic_cache role1 = some e := by
      rw [hdy]; exact he
    simp [get_database_dynamic_secret, hok, hge, hfresh]
  · intro hmiss
    constructor
    · rcases hmiss with hnone | ⟨e, he, hstale⟩
      · have hge : dictGet (ensure_valid_token s now lr rr).2.1.db_dynamic_cache role1 = none := by
          rw [hdy]; exact hnone
        rcases frd with u | r <;> simp [get_database_dynamic_secret, hok, hge]
      · have hge : dictGet (ensure_valid_token s now lr rr).2.1.db_dynamic_cache role1 = some e := by
          rw [hdy]; exact he
        rcases frd with u | r <;> simp [get_database_dynamic_secret, hok, hge, hstale]
    · intro r hr
      subst hr
      rcases hmiss with hnone | ⟨e, he, hstale⟩
      · have hge : dictGet (ensure_valid_token s now lr rr).2.1.db_dynamic_cache role1 = none := by
          rw [hdy]; exact hnone
        simp [get_database_dynamic_secret, hok, hge, hdy, hnone]
      · have hge : dictGet (ensure_valid_token s now lr rr).2.1.db_dynamic_cache role1 = some e := by
          rw [hdy]; exact he
        simp [get_database_dynamic_secret, hok, hge, hstale, hdy, he]
  · intro e he hfresh
    have hge : dictGet (ensure_valid_token s now lr rr).2.1.db_static_cache role2 = some e := by
      rw [hst]; exact he
    simp [get_database_static_secret, hok, hge, hfresh]
  · intro hmiss
    constructor
    · rcases hmiss with hnone | ⟨e, he, hstale⟩
      · have hge : dictGet (ensure_valid_token s now lr rr).2.1.db_static_cache role2 = none := by
          rw [hst]; exact hnone
        rcases frs with u | r <;> simp [get_database_static_secret, hok, hge]
      · have hge : dictGet (ensure_valid_token s now lr rr).2.1.db_static_cache role2 = some e := by
          rw [hst]; exact he
        rcases frs with u | r <;> simp [get_database_static_secret, hok, hge, hstale]
    · intro r hr
      subst hr
      rcases hmiss with hnone | ⟨e, he, hstale⟩
      · have hge : dictGet (ensure_valid_token s now lr rr).2.1.db_static_cache role2 = none := by
          rw [hst]; exact hnone
        simp [get_database_static_secret, hok, hge, hst, hnone]
      · have hge : dictGet (ensure_valid_token s now lr rr).2.1.db_static_cache role2 = some e := by
          rw [hst]; exact he
        simp [get_database_static_secret, hok, hge, hstale, hst, he]

/-- Witness for C5: empty KV cache, valid token, successful fetch: exactly one
remote read, exactly one new entry stored at the key, payload returned. -/
theorem C5_witness :
    (get_kv_secret (⟨some "t", 0, 1000, [], [], []⟩ :
        ClientState String String String String) "p" 5
      (Except.error ()) (Except.error ()) (Except.ok ⟨"v", "m"⟩)).2.2 = 1 ∧
    (get_kv_secret (⟨some "t", 0, 1000, [], [], []⟩ :
        ClientState String String String String) "p" 5
      (Except.error ()) (Except.error ()) (Except.ok ⟨"v", "m"⟩)).2.1.kv_cache =
      [("p", ⟨"v", "m", 5⟩)] ∧
    (get_kv_secret (⟨some "t", 0, 1000, [], [], []⟩ :
        ClientState String String String String) "p" 5
      (Except.error ()) (Except.error ()) (Except.ok ⟨"v", "m"⟩)).1 = some "v" := by
  have hens : ensure_valid_token (⟨some "t", 0, 1000, [], [], []⟩ :
      ClientState String String String String) 5 (Except.error ()) (Except.error ()) =
      (true, ⟨some "t", 0, 1000, [], [], []⟩, TokenAction.noneAct) := by
    norm_num [ensure_valid_token, is_token_expired, tokenFalsy,
      show "t".isEmpty = false from rfl]
  obtain ⟨h1, h2⟩ := ((C5_remote_fetch_discipline
      (⟨some "t", 0, 1000, [], [], []⟩ : ClientState String String String String)
      "p" "r1" "r2" 5 (Except.error ()) (Except.error ())
      (Except.ok ⟨"v", "m"⟩) (Except.error ()) (Except.error ())
      (by rw [hens])).1).2 (Or.inl rfl)
  obtain ⟨h3, h4⟩ := h2 ⟨"v", "m"⟩ rfl
  exact ⟨h1, by rw [h3]; rfl, h4⟩

/-- C6: when the remote secret call is the one that runs (token valid, entry
missing or stale) and it fails, each getter returns the unavailable result
(`None`) — the model's total return type reflects that no exception escapes —
and all three caches are exactly as before: nothing added, removed or
modified. -/
theorem C6_remote_failure_absorbed (s : ClientState κ μ δ σ)
    (path role1 role2 : String) (now : ℚ)
    (lr : Except Unit LoginResponse) (rr : Except Unit RenewResponse) (u : Unit)
    (hok : (ensure_valid_token s now lr rr).1 = true) :
    ((dictGet s.kv_cache path = none ∨
        (∃ e : KvEntry κ μ, dictGet s.kv_cache path = some e ∧
          ¬ now - e.timestamp < 300)) →
      (get_kv_secret s path now lr rr (Except.error u)).1 = none ∧
      (get_kv_secret s path now lr rr (Except.error u)).2.1.kv_cache = s.kv_cache ∧
      (get_kv_secret s path now lr rr (Except.error u)).2.1.db_dynamic_cache =
        s.db_dynamic_cache ∧
      (get_kv_secret s path now lr rr (Except.error u)).2.1.db_static_cache =
        s.db_static_cache) ∧
    ((dictGet s.db_dynamic_cache role1 = none ∨
        (∃ e : DynEntry δ, dictGet s.db_dynamic_cache role1 = some e ∧
          ¬ e.ttl - (now - e.timestamp) > 10)) →
      (get_database_dynamic_secret s role1 now lr rr (Except.error u)).1 = none ∧
      (get_database_dynamic_secret s role1 now lr rr (Except.error u)).2.1.kv_cache =
        s.kv_cache ∧
      (get_database_dynamic_secret s role1 now lr rr (Except.error u)).2.1.db_dynamic_cache =
        s.db_dynamic_cache ∧
      (get_database_dynamic_secret s role1 now lr rr (Except.error u)).2.1.db_static_cache =
        s.db_static_cache) ∧
    ((dictGet s.db_static_cache role2 = none ∨
        (∃ e : StaticEntry σ, dictGet s.db_static_cache role2 = some e ∧
          ¬ now - e.timestamp < 300)) →
      (get_database_static_secret s role2 now lr rr (Except.error u)).1 =
        StaticResult.unavailable ∧
      (get_database_static_secret s role2 now lr rr (Except.error u)).2.1.kv_cache =
        s.kv_cache ∧
      (get_database_static_secret s role2 now lr rr (Except.error u)).2.1.db_dynamic_cache =
        s.db_dynamic_cache ∧
      (get_database_static_secret s role2 now lr rr (Except.error u)).2.1.db_static_cache =
        s.db_static_cache) := by
  obtain ⟨hkv, hdy, hst⟩ := ensure_caches s now lr rr
  refine ⟨fun hmiss => ?_, fun hmiss => ?_, fun hmiss => ?_⟩
  · rcases hmiss with hnone | ⟨e, he, hstale⟩
    · have hge : dictGet (ensure_valid_token s now lr rr).2.1.kv_cache path = none := by
        rw [hkv]; exact hnone
      simp [get_kv_secret, hok, hge, hkv, hdy, hst, hnone]
    · have hge : dictGet (ensure_valid_token s now lr rr).2.1.kv_cache path = some e := by
        rw [hkv]; exact he
      simp [get_kv_secret, hok, hge, hkv, hdy, hst, he, hstale]
  · rcases hmiss with hnone | ⟨e, he, hstale⟩
    · have hge : dictGet (ensure_valid_token s now lr rr).2.1.db_dynamic_cache role1 = none := by
        rw [hdy]; exact hnone
      simp [get_database_dynamic_secret, hok, hge, hkv, hdy, hst, hnone]
    · have hge : dictGet (ensure_valid_token s now lr rr).2.1.db_dynamic_cache role1 = some e := by
        rw [hdy]; exact he
      simp [get_database_dynamic_secret, hok, hge, hkv, hdy, hst, he, hstale]
  · rcases hmiss with hnone | ⟨e, he, hstale⟩
    · have hge : dictGet (ensure_valid_token s now lr rr).2.1.db_static_cache role2 = none := by
        rw [hst]; exact hnone
      simp [get_database_static_secret, hok, hge, hkv, hdy, hst, hnone]
    · have hge : dictGet (ensure_valid_token s now lr rr).2.1.db_static_cache role2 = some e := by
        rw [hst]; exact he
      simp [get_database_static_secret, hok, hge, hkv, hdy, hst, he, hstale]

/-- Witness for C6: stale KV entry (stored at 0, read at 400), failing remote
read: the getter answers `None` and the caches are untouched. -/
theorem C6_witness :
    (get_kv_secret (⟨some "t", 350, 1000, [("p", ⟨"v", "m", 0⟩)], [], []⟩ :
        ClientState String String String String) "p" 400
      (Except.error ()) (Except.error ()) (Except.error ())).1 = none ∧
    (get_kv_secret (⟨some "t", 350, 1000, [("p", ⟨"v", "m", 0⟩)], [], []⟩ :
        ClientState String String String String) "p" 400
      (Except.error ()) (Except.error ()) (Except.error ())).2.1.kv_cache =
      [("p", ⟨"v", "m", 0⟩)] := by
  have hens : ensure_valid_token (⟨some "t", 350, 1000, [("p", ⟨"v", "m", 0⟩)], [], []⟩ :
      ClientState String String String String) 400 (Except.error ()) (Except.error ()) =
      (true, ⟨some "t", 350, 1000, [("p", ⟨"v", "m", 0⟩)], [], []⟩, TokenAction.noneAct) := by
    norm_num [ensure_valid_token, is_token_expired, tokenFalsy,
      show "t".isEmpty = false from rfl]
  have h := (C6_remote_failure_absorbed
      (⟨some "t", 350, 1000, [("p", ⟨"v", "m", 0⟩)], [], []⟩ :
        ClientState String String String String) "p" "r1" "r2" 400
      (Except.error ()) (Except.error ()) ()
      (by rw [hens])).1
      (Or.inr ⟨⟨"v", "m", 0⟩, by simp [dictGet], by norm_num⟩)
  exact ⟨h.1, h.2.1⟩

/-- C9: `get_database_static_secret` is shape-inconsistent: a fresh cache hit
returns the bare stored payload (no `ttl` wrapper), while a successful remote
fetch returns the `{'data', 'ttl'}` wrapper with ttl defaulting to 3600 when
the response omits one; the scheduler's re-wrap normalizes both shapes into a
data/ttl pair (using ttl `-1` for the bare shape, whose ttl is unknown). -/
theorem C9_static_result_shapes (s : ClientState κ μ δ σ) (role : String)
    (now : ℚ) (lr : Except Unit LoginResponse) (rr : Except Unit RenewResponse)
    (fr : Except Unit (StaticResponse σ))
    (hok : (ensure_valid_token s now lr rr).1 = true) :
    (∀ e : StaticEntry σ, dictGet s.db_static_cache role = some e →
      now - e.timestamp < 300 →
      (get_database_static_secret s role now lr rr fr).1 =
        StaticResult.bare e.data) ∧
    ((dictGet s.db_static_cache role = none ∨
        (∃ e : StaticEntry σ, dictGet s.db_static_cache role = some e ∧
          ¬ now - e.timestamp < 300)) →
      ∀ r : StaticResponse σ, fr = Except.ok r →
        (get_database_static_secret s role now lr rr fr).1 =
          StaticResult.wrapped r.data (r.ttl.getD 3600)) ∧
    (∀ r : StaticResponse σ, r.ttl = none → r.ttl.getD 3600 = 3600) ∧
    (∀ d : σ, rewrapStatic (StaticResult.bare d) = some (d, -1)) ∧
    (∀ (d : σ) (t : ℚ), rewrapStatic (StaticResult.wrapped d t) = some (d, t)) := by
  obtain ⟨hkv, hdy, hst⟩ := ensure_caches s now lr rr
  refine ⟨fun e he hfresh => ?_, fun hmiss r hr => ?_,
    fun r hr => by rw [hr]; rfl, fun d => rfl, fun d t => rfl⟩
  · have hge : dictGet (ensure_valid_token s now lr rr).2.1.db_static_cache role = some e := by
      rw [hst]; exact he
    simp [get_database_static_secret, hok, hge, hfresh]
  · subst hr
    rcases hmiss with hnone | ⟨e, he, hstale⟩
    · have hge : dictGet (ensure_valid_token s now lr rr).2.1.db_static_cache role = none := by
        rw [hst]; exact hnone
      simp [get_database_static_secret, hok, hge, hst, hnone]
    · have hge : dictGet (ensure_valid_token s now lr rr).2.1.db_static_cache role = some e := by
        rw [hst]; exact he
      simp [get_database_static_secret, hok, hge, hst, he, hstale]

/-- Witness for C9: a fresh static hit returns the bare payload `"sv"` and the
scheduler re-wrap turns it into `("sv", -1)`; a response with no ttl field
defaults to 3600. -/
theorem C9_witness :
    (get_database_static_secret (⟨some "t", 0, 1000, [], [], [("r", ⟨"sv", 50, 0⟩)]⟩ :
        ClientState String String String String) "r" 100
      (Except.error ()) (Except.error ()) (Except.error ())).1 =
      StaticResult.bare "sv" ∧
    rewrapStatic (StaticResult.bare "sv") = some ("sv", -1) ∧
    (StaticResponse.mk "w" (none : Option ℚ)).ttl.getD 3600 = 3600 := by
  have hens : ensure_valid_token (⟨some "t", 0, 1000, [], [], [("r", ⟨"sv", 50, 0⟩)]⟩ :
      ClientState String String String String) 100 (Except.error ()) (Except.error ()) =
      (true, ⟨some "t", 0, 1000, [], [], [("r", ⟨"sv", 50, 0⟩)]⟩, TokenAction.noneAct) := by
    norm_num [ensure_valid_token, is_token_expired, tokenFalsy,
      show "t".isEmpty = false from rfl]
  have hc9 := C9_static_result_shapes
      (⟨some "t", 0, 1000, [], [], [("r", ⟨"sv", 50, 0⟩)]⟩ :
        ClientState String String String String) "r" 100
      (Except.error ()) (Except.error ()) (Except.error ()) (by rw [hens])
  exact ⟨hc9.1 ⟨"sv", 50, 0⟩ (by simp [dictGet]) (by norm_num),
    hc9.2.2.2.1 "sv", hc9.2.2.1 ⟨"w", none⟩ rfl⟩

/-- C10: the three unsynchronized token-field writes of a login are not
atomic.  Over the shared state (token `"old"`, lease 100), running
login(`"new"`, issued 200, lease 50) and scheduling a concurrent reader's
snapshot right after the first write lets the reader observe token `"new"`
paired with lease 100 — a mix of new token and old lease that is neither the
old pair nor the new pair, refuting the claim's no-torn-state guarantee. -/
theorem C10_torn_read_exhibited :
    afterWrites "new" 200 50 1 ⟨some "old", 0, 100⟩ = ⟨some "new", 0, 100⟩ ∧
    afterWrites "new" 200 50 3 ⟨some "old", 0, 100⟩ = ⟨some "new", 200, 50⟩ ∧
    decide (((afterWrites "new" 200 50 1 ⟨some "old", 0, 100⟩).token,
             (afterWrites "new" 200 50 1 ⟨some "old", 0, 100⟩).ttl) =
            ((some "old" : Option String), (100 : ℚ))) = false ∧
    decide (((afterWrites "new" 200 50 1 ⟨some "old", 0, 100⟩).token,
             (afterWrites "new" 200 50 1 ⟨some "old", 0, 100⟩).ttl) =
            ((some "new" : Option String), (50 : ℚ))) = false := by
  refine ⟨rfl, rfl, ?_, ?_⟩ <;> decide
